import Mathlib

/-!
# Verification of the SmolVLM2 VQA demo

Shallow embedding of the repository's two source files plus the
spec-described session store (whose backend implementation is not part of
the sources), with theorems settling the frozen claims.

* `src/backend/download_model.py` — startup model-identifier resolution.
* `src/frontend/app.py` — Streamlit client: health probe, session
  initialisation, question asking, paste-data parsing, UI status rendering.
-/

namespace SmolVLM

/-! ## Backend: `download_model.py` — model identifier resolution -/

/-- The `MODEL_SIZES` dict of `download_model.py` (insertion order kept,
as Python dicts iterate in insertion order). -/
def MODEL_SIZES : List (String × String) :=
  [ ("256M", "HuggingFaceTB/SmolVLM2-256M-Video-Instruct"),
    ("500M", "HuggingFaceTB/SmolVLM2-500M-Video-Instruct"),
    ("2.2B", "HuggingFaceTB/SmolVLM2-2.2B-Instruct"),
    ("1B",   "HuggingFaceTB/SmolVLM2-2.2B-Instruct"),
    ("2B",   "HuggingFaceTB/SmolVLM2-2.2B-Instruct") ]

/-- `needle` occurs as a contiguous run at the front of `hay`. -/
def listPrefixOf : List Char → List Char → Bool
  | [], _ => true
  | _ :: _, [] => false
  | a :: as, b :: bs => a = b && listPrefixOf as bs

/-- `needle` occurs as a contiguous run somewhere in `hay`. -/
def listInfixOf (needle : List Char) : List Char → Bool
  | [] => listPrefixOf needle []
  | b :: bs => listPrefixOf needle (b :: bs) || listInfixOf needle bs

/-- Python's substring test `needle in hay`. -/
def strContains (hay needle : String) : Bool :=
  listInfixOf needle.data hay.data

/-- The `for k in MODEL_SIZES.keys(): if k in key or key in k: key = k; break
else: key = '256M'` fallback loop of `download_model.py`, over an arbitrary
table prefix still to scan. -/
def substrFallback : List (String × String) → String → String
  | [], _ => "256M"
  | (k, _) :: rest, key =>
      if strContains key k || strContains k key then k else substrFallback rest key

/-- Python's `str.upper()` (ASCII range, which covers every table key). -/
def strUpper (s : String) : String :=
  ⟨s.data.map Char.toUpper⟩

/-- The key finally used to index `MODEL_SIZES`: the upper-cased
`MODEL_SIZE`, or the result of the substring-fallback loop when that
upper-cased key is not an exact table key. -/
def resolveKey (modelSize : String) : String :=
  let key := strUpper modelSize
  if (MODEL_SIZES.lookup key).isSome then key else substrFallback MODEL_SIZES key

/-- `MODEL_ID` as computed at startup by `download_model.py`:
`VQA_MODEL_ID` verbatim when non-empty, otherwise
`MODEL_SIZES.get(key, MODEL_SIZES['256M'])` for the resolved key. -/
def resolveModelId (vqaModelId modelSize : String) : String :=
  if vqaModelId ≠ "" then vqaModelId
  else
    match MODEL_SIZES.lookup (resolveKey modelSize) with
    | some v => v
    | none => "HuggingFaceTB/SmolVLM2-256M-Video-Instruct"

/-! ## Frontend: `app.py` -/

/-- A parsed JSON object, modelled as string-valued fields in order
(`.get k` is association lookup; a missing key gives Python `None`). -/
abbrev JsonFields := List (String × String)

/-- Outcome of one HTTP request made through `requests`: either a response
(with status code, the result of `resp.json()` — which can itself raise,
carried as `Except` — and `resp.text`), or a raised exception with its
`str(e)` message. -/
inductive ReqResult where
  | resp (status : Nat) (json : Except String JsonFields) (text : String)
  | exn (msg : String)

/-- A Streamlit `UploadedFile`: name, raw bytes, MIME type. -/
structure UploadedFile where
  name : String
  value : List Nat
  type : String

/-- The two `st.session_state` fields written by `init_vqa_session`. -/
structure ClientState where
  vqa_session_id : Option String
  vqa_caption : Option String
deriving DecidableEq, Repr

/-- A message displayed to the user (`st.error` / `st.warning` /
`st.success`). -/
inductive Msg where
  | error (s : String)
  | warning (s : String)
  | success (s : String)
deriving DecidableEq, Repr

/-- Python's `str.strip()` (ASCII whitespace, which is what the demo's
inputs use). -/
def pyStrip (s : String) : String :=
  ⟨((s.data.dropWhile Char.isWhitespace).reverse.dropWhile Char.isWhitespace).reverse⟩

/-- Python's `str.startswith(pre)`. -/
def pyStartsWith (s pre : String) : Bool :=
  listPrefixOf pre.data s.data

/-- Python's `s.split(',', 1)` as used in `_, b64 = data.split(',', 1)`:
the parts before and after the first comma; `none` when there is no comma
(Python then raises `ValueError`). -/
def splitFirstComma : List Char → Option (List Char × List Char)
  | [] => none
  | c :: cs =>
      if c = ',' then some ([], cs)
      else (splitFirstComma cs).map fun p => (c :: p.1, p.2)

/-- The base64 payload selected from a pasted string by `init_vqa_session`
(app.py lines 57-63): strip, then the part after the first comma when the
stripped data starts with `"data:"`, else the whole stripped string.
`Except` carries a raised `ValueError`. -/
def extractPasteB64 (paste : String) : Except String String :=
  let data := pyStrip paste
  if pyStartsWith data "data:" then
    match splitFirstComma data.data with
    | some (_, b64) => .ok ⟨b64⟩
    | none => .error "not enough values to unpack"
  else .ok data

/-- The base64 payload selected from a pasted string by the preview branch
(app.py lines 150-157), written out separately so that agreement of the two
sites is a theorem, not a definition. -/
def previewPasteB64 (paste : String) : Except String String :=
  let data := pyStrip paste
  if pyStartsWith data "data:" then
    match splitFirstComma data.data with
    | some (_, b64) => .ok ⟨b64⟩
    | none => .error "not enough values to unpack"
  else .ok data

/-- Result of the file-preparation block of `init_vqa_session`
(app.py lines 49-67). -/
inductive FilesPrep where
  | files (name : String) (bytes : List Nat) (mime : String)
  | noInput
  | raised (msg : String)
deriving DecidableEq, Repr

/-- The file-preparation block of `init_vqa_session` (app.py lines 49-67):
an uploaded file wins; else non-empty pasted data is parsed and
base64-decoded (a decode failure raises, caught by the outer handler);
else there is no input. `b64decode` abstracts Python's
`base64.b64decode`, `Except` its `binascii.Error`. -/
def prepFiles (uploaded : Option UploadedFile) (pasteData : String)
    (b64decode : String → Except String (List Nat)) : FilesPrep :=
  match uploaded with
  | some f => .files f.name f.value f.type
  | none =>
      if pasteData ≠ "" then
        match extractPasteB64 pasteData with
        | .error e => .raised e
        | .ok b64 =>
            match b64decode b64 with
            | .error e => .raised e
            | .ok bytes => .files "pasted.png" bytes "image/png"
      else .noInput

/-- `check_backend_health` (app.py lines 31-37): `True` exactly when the
GET of `/health` produced a response with status 200; any raised request
exception yields `False`. -/
def check_backend_health : ReqResult → Bool
  | .resp status _ _ => status == 200
  | .exn _ => false

/-- `resp.json().get('detail', resp.text)` under
`try ... except: detail = resp.text` (app.py lines 84-87 and 112-115). -/
def respDetail (json : Except String JsonFields) (text : String) : String :=
  match json with
  | .ok d => (d.lookup "detail").getD text
  | .error _ => text

/-- `init_vqa_session` (app.py lines 40-93). Inputs: the health-probe
outcome, the two image sources, the base64 decoder, the outcome of the
POST to `/api/vqa/init`, and the prior client state. Output: the returned
Bool, the client state after the call, and the messages displayed. -/
def init_vqa_session (apiUrl : String) (healthProbe : ReqResult)
    (uploaded : Option UploadedFile) (pasteData : String)
    (b64decode : String → Except String (List Nat))
    (postResult : ReqResult) (s : ClientState) :
    Bool × ClientState × List Msg :=
  if !check_backend_health healthProbe then
    (false, s, [.error ("❌ Backend is offline. Make sure it's running on " ++ apiUrl)])
  else
    match prepFiles uploaded pasteData b64decode with
    | .noInput => (false, s, [.warning "Please upload an image or paste image data first"])
    | .raised e => (false, s, [.error ("Request error: " ++ e)])
    | .files _ _ _ =>
        match postResult with
        | .exn m => (false, s, [.error ("Request error: " ++ m)])
        | .resp status json text =>
            if status = 200 then
              match json with
              | .ok d =>
                  (true,
                   { vqa_session_id := d.lookup "session_id",
                     vqa_caption := d.lookup "caption" },
                   [.success "✅ VQA session created successfully!"])
              | .error e => (false, s, [.error ("Request error: " ++ e)])
            else (false, s, [.error ("Init failed: " ++ respDetail json text)])

/-- `ask_question` (app.py lines 96-121), given the outcome of the POST to
`/api/vqa/ask`: on a 200 response the `answer` field (Python `.get` may
give `None`); otherwise `None` with the displayed error. -/
def ask_question (postResult : ReqResult) : Option String × List Msg :=
  match postResult with
  | .exn m => (none, [.error ("Request error: " ++ m)])
  | .resp status json text =>
      if status = 200 then
        match json with
        | .ok d => (d.lookup "answer", [])
        | .error e => (none, [.error ("Request error: " ++ e)])
      else (none, [.error ("Ask failed: " ++ respDetail json text)])

/-- The Session-Status panel (app.py lines 173-176): the session is
presented as active exactly when a (truthy) session id is stored. -/
def sessionStatusActive (s : ClientState) : Bool :=
  match s.vqa_session_id with
  | none => false
  | some i => i != ""

/-- The Ask-button flow (app.py lines 203-210 around `ask_question`):
a blank question is rejected client-side with an error and no request;
otherwise the request outcome is handled by `ask_question`. The client
state is threaded through unchanged to make the absence of writes on this
path explicit. -/
def askFlow (s : ClientState) (question : String) (postResult : ReqResult) :
    ClientState × Option String × List Msg :=
  if pyStrip question = "" then
    (s, none, [.error "Question cannot be empty"])
  else
    let r := ask_question postResult
    (s, r.1, r.2)

/-- The sidebar backend-status block (app.py lines 219-230): when the
health probe succeeds, show "Healthy" plus the `model` and `device` fields
of the second `/health` response (any exception there is swallowed);
otherwise show "Offline" and the backend URL. -/
def sidebar_status (healthProbe metaProbe : ReqResult) (apiUrl : String) :
    List String :=
  if check_backend_health healthProbe then
    "✅ Healthy" ::
      (match metaProbe with
       | .resp _ (.ok d) _ =>
           ["Model: " ++ ((d.lookup "model").getD "Unknown"),
            "Device: " ++ ((d.lookup "device").getD "Unknown")]
       | .resp _ (.error _) _ => []
       | .exn _ => [])
  else ["❌ Offline", "Backend URL: " ++ apiUrl]

/-! ## Session store (backend), modelled from the spec

The backend service implementing the session store is not among the
repository's source files (only `download_model.py` is); its behaviour is
modelled from the spec, §3-§4.1. -/

/-- Modelled from the spec: the Session entity (§3) of the missing backend
service — immutable image and caption, append-only (question, answer)
history, and a last-accessed timestamp. -/
structure Session where
  image : List Nat
  caption : String
  history : List (String × String)
  last_accessed : Nat
deriving DecidableEq, Repr

/-- Modelled from the spec: the Session Store's table (§4.1) of the
missing backend service, mapping session ids to sessions. -/
abbrev SessionStore := List (String × Session)

/-- Modelled from the spec: the error kinds of `ask` (§4.1, §7) of the
missing backend service. -/
inductive AskError where
  | invalidInput
  | sessionNotFound
deriving DecidableEq, Repr

/-- Replace the session stored under `sid`, leaving other entries alone. -/
def replaceSession (store : SessionStore) (sid : String) (sess : Session) :
    SessionStore :=
  store.map fun p => if p.1 = sid then (sid, sess) else p

/-- Modelled from the spec: `ask(session_id, question)` of the Session
Store (§4.1) of the missing backend service — reject a question that is
empty after trimming, fail on an unknown id, otherwise call the Model
Inference Service's `answer` with the session's image, its full prior
history and the new question, append the turn and bump `last_accessed`.
On success the result also carries the exact (history, question) passed
to the model, so that the model-facing call is observable. -/
def storeAsk (answerFn : List Nat → List (String × String) → String → String)
    (now : Nat) (store : SessionStore) (sid question : String) :
    Except AskError (String × SessionStore × (List (String × String) × String)) :=
  if pyStrip question = "" then .error .invalidInput
  else
    match store.lookup sid with
    | none => .error .sessionNotFound
    | some sess =>
        let ans := answerFn sess.image sess.history question
        .ok (ans,
             replaceSession store sid
               { sess with history := sess.history ++ [(question, ans)],
                           last_accessed := now },
             (sess.history, question))

/-- The Ask-button handler (app.py lines 203-210) driving the
spec-modelled store: a blank question displays an error and issues no
request; otherwise one ask request is issued and served. Returns the
store after the attempt, the messages, whether a request was issued, and
the answer. -/
def askButtonStep
    (answerFn : List Nat → List (String × String) → String → String)
    (now : Nat) (store : SessionStore) (sid question : String) :
    SessionStore × List Msg × Bool × Option String :=
  if pyStrip question = "" then
    (store, [.error "Question cannot be empty"], false, none)
  else
    match storeAsk answerFn now store sid question with
    | .ok (ans, store2, _) => (store2, [], true, some ans)
    | .error _ => (store, [], true, none)

/-- The history length of the session stored under `sid` (0 if absent). -/
def historyLen (store : SessionStore) (sid : String) : Nat :=
  match store.lookup sid with
  | some sess => sess.history.length
  | none => 0

/-- Run a list of questions through `storeAsk` in order (a failed turn
leaves the store unchanged). -/
def runTurns (answerFn : List Nat → List (String × String) → String → String)
    (now : Nat) (store : SessionStore) (sid : String) :
    List String → SessionStore
  | [] => store
  | q :: qs =>
      match storeAsk answerFn now store sid q with
      | .ok (_, store2, _) => runTurns answerFn now store2 sid qs
      | .error _ => runTurns answerFn now store sid qs

/-- The history a session accumulates, turn by turn, from history `h0`
when the questions `qs` are asked in order. -/
def turnsFrom (answerFn : List Nat → List (String × String) → String → String)
    (image : List Nat) (h0 : List (String × String)) :
    List String → List (String × String)
  | [] => h0
  | q :: qs => turnsFrom answerFn image (h0 ++ [(q, answerFn image h0 q)]) qs

end SmolVLM

namespace SmolVLM

/-! ## Helper lemmas -/

theorem listPrefixOf_self (l : List Char) : listPrefixOf l l = true := by
  induction l with
  | nil => rfl
  | cons c cs ih => simp [listPrefixOf, ih]

theorem listInfixOf_append (a b : List Char) : listInfixOf b (a ++ b) = true := by
  induction a with
  | nil =>
      cases b with
      | nil => rfl
      | cons c cs => simp [listInfixOf, listPrefixOf_self]
  | cons x a' ih => simp [listInfixOf, ih]

theorem strContains_append (x y : String) : strContains (x ++ y) y = true := by
  cases x with
  | mk xd =>
      cases y with
      | mk yd => exact listInfixOf_append xd yd

theorem lookup_mem_keys {β : Type} (l : List (String × β)) (k : String)
    (h : (l.lookup k).isSome) : k ∈ l.map Prod.fst := by
  induction l with
  | nil => simp [List.lookup] at h
  | cons p t ih =>
      obtain ⟨k', v⟩ := p
      by_cases hk : k = k'
      · simp [hk]
      · have hbeq : (k == k') = false := by simp [hk]
        simp only [List.lookup, hbeq] at h
        simp [ih h]

theorem substrFallback_mem (l : List (String × String)) (key : String) :
    substrFallback l key ∈ l.map Prod.fst ∨ substrFallback l key = "256M" := by
  induction l with
  | nil => right; rfl
  | cons p t ih =>
      obtain ⟨k, v⟩ := p
      by_cases h : (strContains key k || strContains k key) = true
      · left; simp [substrFallback, h]
      · simp only [substrFallback, h, if_false]
        rcases ih with hm | he
        · left; simp [hm]
        · right; exact he

theorem resolveKey_mem (s : String) : resolveKey s ∈ MODEL_SIZES.map Prod.fst := by
  simp only [resolveKey]
  by_cases h : (MODEL_SIZES.lookup (strUpper s)).isSome = true
  · rw [if_pos h]
    exact lookup_mem_keys MODEL_SIZES (strUpper s) h
  · rw [if_neg h]
    rcases substrFallback_mem MODEL_SIZES (strUpper s) with hm | he
    · exact hm
    · rw [he]; decide

theorem resolveModelId_empty (s : String) :
    resolveModelId "" s
      = (match MODEL_SIZES.lookup (resolveKey s) with
         | some v => v
         | none => "HuggingFaceTB/SmolVLM2-256M-Video-Instruct") := by
  simp [resolveModelId]

/-- Whatever `MODEL_SIZE` is, the default resolution lands on one of the
three SmolVLM2 identifiers occurring in the table. -/
theorem resolveModelId_default_mem (s : String) :
    resolveModelId "" s = "HuggingFaceTB/SmolVLM2-256M-Video-Instruct"
    ∨ resolveModelId "" s = "HuggingFaceTB/SmolVLM2-500M-Video-Instruct"
    ∨ resolveModelId "" s = "HuggingFaceTB/SmolVLM2-2.2B-Instruct" := by
  have hk := resolveKey_mem s
  have hkeys : MODEL_SIZES.map Prod.fst = ["256M", "500M", "2.2B", "1B", "2B"] := by decide
  rw [hkeys] at hk
  simp only [List.mem_cons, List.not_mem_nil, or_false] at hk
  rw [resolveModelId_empty]
  rcases hk with h | h | h | h | h <;> rw [h] <;> decide

theorem splitFirstComma_append (post : List Char) :
    ∀ pre : List Char, ',' ∉ pre →
      splitFirstComma (pre ++ ',' :: post) = some (pre, post) := by
  intro pre
  induction pre with
  | nil => intro _; simp [splitFirstComma]
  | cons c cs ih =>
      intro h
      have hc : ¬c = ',' := fun hh => h (by simp [hh])
      have hcs : ',' ∉ cs := fun hm => h (List.mem_cons_of_mem _ hm)
      simp [splitFirstComma, hc, ih hcs]

theorem replaceSession_lookup (sid : String) (s2 : Session) :
    ∀ (store : SessionStore) (sess : Session),
      store.lookup sid = some sess →
      (replaceSession store sid s2).lookup sid = some s2 := by
  intro store
  induction store with
  | nil => intro sess h; simp [List.lookup] at h
  | cons p t ih =>
      intro sess h
      obtain ⟨k, v⟩ := p
      by_cases hk : k = sid
      · subst hk
        have hrepl : replaceSession ((k, v) :: t) k s2 = (k, s2) :: replaceSession t k s2 := by
          simp [replaceSession]
        rw [hrepl]
        simp [List.lookup]
      · have hne : ¬sid = k := fun hh => hk hh.symm
        have hbeq : (sid == k) = false := by simp [hne]
        simp only [List.lookup, hbeq] at h
        have hrepl : replaceSession ((k, v) :: t) sid s2 = (k, v) :: replaceSession t sid s2 := by
          simp [replaceSession, hk]
        rw [hrepl]
        simp only [List.lookup, hbeq]
        exact ih sess h

theorem turnsFrom_fst
    (f : List Nat → List (String × String) → String → String) (img : List Nat) :
    ∀ (qs : List String) (h0 : List (String × String)),
      (turnsFrom f img h0 qs).map Prod.fst = h0.map Prod.fst ++ qs := by
  intro qs
  induction qs with
  | nil => intro h0; simp [turnsFrom]
  | cons q qs' ih => intro h0; simp [turnsFrom, ih]

theorem runTurns_lookup
    (f : List Nat → List (String × String) → String → String)
    (now : Nat) (sid : String) :
    ∀ (qs : List String) (store : SessionStore) (sess : Session),
      store.lookup sid = some sess →
      (∀ q ∈ qs, pyStrip q ≠ "") →
      ∃ la, (runTurns f now store sid qs).lookup sid
        = some ⟨sess.image, sess.caption, turnsFrom f sess.image sess.history qs, la⟩ := by
  intro qs
  induction qs with
  | nil =>
      intro store sess h _
      exact ⟨sess.last_accessed, by simpa [runTurns, turnsFrom] using h⟩
  | cons q qs' ih =>
      intro store sess h hq
      have hq1 : pyStrip q ≠ "" := hq q (by simp)
      have hstep : storeAsk f now store sid q
          = .ok (f sess.image sess.history q,
                 replaceSession store sid
                   { sess with
                       history := sess.history ++ [(q, f sess.image sess.history q)],
                       last_accessed := now },
                 (sess.history, q)) := by
        simp [storeAsk, hq1, h]
      have h2 := replaceSession_lookup sid
        { sess with
            history := sess.history ++ [(q, f sess.image sess.history q)],
            last_accessed := now } store sess h
      have hqs' : ∀ x ∈ qs', pyStrip x ≠ "" :=
        fun x hx => hq x (List.mem_cons_of_mem _ hx)
      have hrec := ih _ _ h2 hqs'
      simpa [runTurns, hstep, turnsFrom] using hrec

/-! ## Claim theorems -/

/-- C3: at startup, when `VQA_MODEL_ID` is empty the model identifier is
resolved from the `MODEL_SIZE` tier name, upper-cased and looked up in the
size table, so each named tier resolves to its pretrained identifier;
when `VQA_MODEL_ID` is non-empty it is used verbatim. -/
theorem claim_C3 :
    (∀ v s : String, v ≠ "" → resolveModelId v s = v)
    ∧ (∀ s v : String, MODEL_SIZES.lookup (strUpper s) = some v →
        resolveModelId "" s = v)
    ∧ resolveModelId "" "256M" = "HuggingFaceTB/SmolVLM2-256M-Video-Instruct"
    ∧ resolveModelId "" "500M" = "HuggingFaceTB/SmolVLM2-500M-Video-Instruct"
    ∧ resolveModelId "" "2.2B" = "HuggingFaceTB/SmolVLM2-2.2B-Instruct"
    ∧ resolveModelId "" "1B" = "HuggingFaceTB/SmolVLM2-2.2B-Instruct"
    ∧ resolveModelId "" "2B" = "HuggingFaceTB/SmolVLM2-2.2B-Instruct" := by
  refine ⟨?_, ?_, by decide, by decide, by decide, by decide, by decide⟩
  · intro v s hv
    simp [resolveModelId, hv]
  · intro s v hl
    rw [resolveModelId_empty]
    have hkey : resolveKey s = strUpper s := by
      simp only [resolveKey]
      rw [if_pos (by simp [hl])]
    rw [hkey, hl]

/-- C3 witness: the resolution at concrete configurations, via `claim_C3`. -/
theorem claim_C3_witness :
    resolveModelId "custom/model" "1B" = "custom/model"
    ∧ resolveModelId "" "500m" = "HuggingFaceTB/SmolVLM2-500M-Video-Instruct" :=
  ⟨claim_C3.1 "custom/model" "1B" (by decide),
   claim_C3.2.1 "500m" "HuggingFaceTB/SmolVLM2-500M-Video-Instruct" (by decide)⟩

/-- C8: model-tier resolution is total: for every `MODEL_SIZE` string the
resolved identifier is one of the three SmolVLM2 identifiers in the table;
a tier with no exact match falls back to substring matching in table order
(`"2"` hits `'256M'` first, `"x500my"` hits `'500M'`), otherwise to the
256M default (`"XYZ"`); and `'1B'`/`'2B'` resolve to the 2.2B model. -/
theorem claim_C8 :
    (∀ s : String,
      resolveModelId "" s = "HuggingFaceTB/SmolVLM2-256M-Video-Instruct"
      ∨ resolveModelId "" s = "HuggingFaceTB/SmolVLM2-500M-Video-Instruct"
      ∨ resolveModelId "" s = "HuggingFaceTB/SmolVLM2-2.2B-Instruct")
    ∧ resolveModelId "" "2" = "HuggingFaceTB/SmolVLM2-256M-Video-Instruct"
    ∧ resolveModelId "" "x500my" = "HuggingFaceTB/SmolVLM2-500M-Video-Instruct"
    ∧ resolveModelId "" "XYZ" = "HuggingFaceTB/SmolVLM2-256M-Video-Instruct"
    ∧ resolveModelId "" "1B" = "HuggingFaceTB/SmolVLM2-2.2B-Instruct"
    ∧ resolveModelId "" "2B" = "HuggingFaceTB/SmolVLM2-2.2B-Instruct" :=
  ⟨resolveModelId_default_mem, by decide, by decide, by decide, by decide, by decide⟩

/-- C1: for a session created with empty history, after the successful
asks of `q1..qn` a subsequent `ask` of the next question passes the Model
Inference Service exactly the accumulated (question, answer) pairs, in the
order the turns were appended — their questions are `q1..qn` verbatim,
none reordered or dropped — followed by the new question. -/
theorem claim_C1
    (f : List Nat → List (String × String) → String → String)
    (now t0 : Nat) (sid : String) (img : List Nat) (cap : String)
    (qs : List String) (qNext : String) (store : SessionStore)
    (hsess : store.lookup sid = some ⟨img, cap, [], t0⟩)
    (hqs : ∀ q ∈ qs, pyStrip q ≠ "") (hq : pyStrip qNext ≠ "") :
    ∃ ans store2,
      storeAsk f now (runTurns f now store sid qs) sid qNext
        = .ok (ans, store2, (turnsFrom f img [] qs, qNext))
      ∧ (turnsFrom f img [] qs).map Prod.fst = qs := by
  obtain ⟨la, hl⟩ := runTurns_lookup f now sid qs store ⟨img, cap, [], t0⟩ hsess hqs
  refine ⟨f img (turnsFrom f img [] qs) qNext,
          replaceSession (runTurns f now store sid qs) sid
            ⟨img, cap,
             turnsFrom f img [] qs
               ++ [(qNext, f img (turnsFrom f img [] qs) qNext)], now⟩,
          ?_, ?_⟩
  · simp [storeAsk, hq, hl]
  · simpa using turnsFrom_fst f img qs []

/-- C1 witness: a concrete session, two prior turns, then a third ask. -/
theorem claim_C1_witness :
    ∃ ans store2,
      storeAsk (fun _ _ _ => "ans") 7
          (runTurns (fun _ _ _ => "ans") 7
            [("sid1", ⟨[3], "cap", [], 0⟩)] "sid1" ["q1", "q2"])
          "sid1" "q3"
        = .ok (ans, store2,
               (turnsFrom (fun _ _ _ => "ans") [3] [] ["q1", "q2"], "q3"))
      ∧ (turnsFrom (fun _ _ _ => "ans") [3] [] ["q1", "q2"]).map Prod.fst
          = ["q1", "q2"] :=
  claim_C1 (fun _ _ _ => "ans") 7 0 "sid1" [3] "cap" ["q1", "q2"] "q3"
    [("sid1", ⟨[3], "cap", [], 0⟩)] (by decide) (by decide) (by decide)

/-- C2: a question that is empty or whitespace-only is rejected: the Ask
button displays "Question cannot be empty", issues no ask request, leaves
the store — hence the session's history length — unchanged, and the
store-level `ask` itself would fail with `InvalidInput`. -/
theorem claim_C2
    (f : List Nat → List (String × String) → String → String)
    (now : Nat) (store : SessionStore) (sid q : String)
    (hq : pyStrip q = "") :
    askButtonStep f now store sid q
      = (store, [.error "Question cannot be empty"], false, none)
    ∧ historyLen (askButtonStep f now store sid q).1 sid = historyLen store sid
    ∧ storeAsk f now store sid q = .error .invalidInput := by
  refine ⟨?_, ?_, ?_⟩ <;> simp [askButtonStep, storeAsk, hq]

/-- C2 witness: a whitespace-only question against a session holding one
prior turn, via `claim_C2`. -/
theorem claim_C2_witness :
    askButtonStep (fun _ _ _ => "ans") 9
        [("s", ⟨[1], "c", [("q0", "a0")], 0⟩)] "s" " \t "
      = ([("s", ⟨[1], "c", [("q0", "a0")], 0⟩)],
         [.error "Question cannot be empty"], false, none)
    ∧ historyLen
        (askButtonStep (fun _ _ _ => "ans") 9
          [("s", ⟨[1], "c", [("q0", "a0")], 0⟩)] "s" " \t ").1 "s"
        = historyLen [("s", ⟨[1], "c", [("q0", "a0")], 0⟩)] "s"
    ∧ storeAsk (fun _ _ _ => "ans") 9
        [("s", ⟨[1], "c", [("q0", "a0")], 0⟩)] "s" " \t "
        = .error .invalidInput :=
  claim_C2 (fun _ _ _ => "ans") 9 [("s", ⟨[1], "c", [("q0", "a0")], 0⟩)] "s" " \t "
    (by decide)

/-- C5: on an HTTP 200 initiate-session response, the client stores
exactly the `session_id` and `caption` fields of the server's JSON into
its session state, displays the success message, and returns True. -/
theorem claim_C5
    (apiUrl : String) (hp : ReqResult) (up : Option UploadedFile)
    (pd : String) (dec : String → Except String (List Nat))
    (d : JsonFields) (t : String) (s : ClientState)
    (n : String) (b : List Nat) (mi : String)
    (hHealth : check_backend_health hp = true)
    (hPrep : prepFiles up pd dec = .files n b mi) :
    init_vqa_session apiUrl hp up pd dec (.resp 200 (.ok d) t) s
      = (true, ⟨d.lookup "session_id", d.lookup "caption"⟩,
         [.success "✅ VQA session created successfully!"]) := by
  simp [init_vqa_session, hHealth, hPrep]

/-- C5 witness: a concrete 200 response carrying a session id and caption,
via `claim_C5`. -/
theorem claim_C5_witness :
    init_vqa_session "u" (.resp 200 (.ok []) "") none "QUJD"
        (fun _ => .ok [65, 66, 67])
        (.resp 200 (.ok [("session_id", "sid-42"), ("caption", "a dog")]) "")
        ⟨none, none⟩
      = (true, ⟨some "sid-42", some "a dog"⟩,
         [.success "✅ VQA session created successfully!"]) :=
  claim_C5 "u" (.resp 200 (.ok []) "") none "QUJD" (fun _ => .ok [65, 66, 67])
    [("session_id", "sid-42"), ("caption", "a dog")] "" ⟨none, none⟩
    "pasted.png" [65, 66, 67] "image/png" (by decide) (by rfl)

/-- C4: failures never escape the two client helpers: a raised request
exception or a non-200 response makes `ask_question` return `None` and
`init_vqa_session` return False, each displaying an error message that
contains the exception text or the server's error detail (the JSON
`detail` field when present, else the response body); a failing
`init_vqa_session` always displays at least one message. -/
theorem claim_C4 :
    (∀ m : String,
      ask_question (.exn m) = (none, [.error ("Request error: " ++ m)])
      ∧ strContains ("Request error: " ++ m) m = true)
    ∧ (∀ (status : Nat) (json : Except String JsonFields) (text : String),
        status ≠ 200 →
        ask_question (.resp status json text)
          = (none, [.error ("Ask failed: " ++ respDetail json text)])
        ∧ strContains ("Ask failed: " ++ respDetail json text)
            (respDetail json text) = true)
    ∧ (∀ (apiUrl : String) (hp : ReqResult) (up : Option UploadedFile)
        (pd : String) (dec : String → Except String (List Nat))
        (s : ClientState) (m n : String) (b : List Nat) (mi : String),
        check_backend_health hp = true →
        prepFiles up pd dec = .files n b mi →
        init_vqa_session apiUrl hp up pd dec (.exn m) s
          = (false, s, [.error ("Request error: " ++ m)]))
    ∧ (∀ (apiUrl : String) (hp : ReqResult) (up : Option UploadedFile)
        (pd : String) (dec : String → Except String (List Nat))
        (s : ClientState) (status : Nat) (json : Except String JsonFields)
        (text n : String) (b : List Nat) (mi : String),
        check_backend_health hp = true →
        prepFiles up pd dec = .files n b mi →
        status ≠ 200 →
        init_vqa_session apiUrl hp up pd dec (.resp status json text) s
          = (false, s, [.error ("Init failed: " ++ respDetail json text)]))
    ∧ (∀ (apiUrl : String) (hp : ReqResult) (up : Option UploadedFile)
        (pd : String) (dec : String → Except String (List Nat))
        (pr : ReqResult) (s : ClientState),
        (init_vqa_session apiUrl hp up pd dec pr s).1 = false →
        (init_vqa_session apiUrl hp up pd dec pr s).2.2 ≠ [])
    ∧ (∀ (d : JsonFields) (text det : String),
        d.lookup "detail" = some det → respDetail (.ok d) text = det) := by
  refine ⟨?_, ?_, ?_, ?_, ?_, ?_⟩
  · intro m
    exact ⟨rfl, strContains_append "Request error: " m⟩
  · intro status json text hs
    refine ⟨?_, strContains_append "Ask failed: " (respDetail json text)⟩
    simp [ask_question, hs]
  · intro apiUrl hp up pd dec s m n b mi hHealth hPrep
    simp [init_vqa_session, hHealth, hPrep]
  · intro apiUrl hp up pd dec s status json text n b mi hHealth hPrep hs
    simp [init_vqa_session, hHealth, hPrep, hs]
  · intro apiUrl hp up pd dec pr s
    by_cases hh : check_backend_health hp = true
    · cases hPrep : prepFiles up pd dec with
      | noInput => simp [init_vqa_session, hh, hPrep]
      | raised e => simp [init_vqa_session, hh, hPrep]
      | files nm bs mm =>
          cases pr with
          | exn m => simp [init_vqa_session, hh, hPrep]
          | resp status json text =>
              by_cases hs : status = 200
              · subst hs
                cases json with
                | ok d => simp [init_vqa_session, hh, hPrep]
                | error e => simp [init_vqa_session, hh, hPrep]
              · simp [init_vqa_session, hh, hPrep, hs]
    · simp [init_vqa_session, hh]
  · intro d text det h
    simp [respDetail, h]

/-- C4 witness: a 503 ask failure carrying a `detail` field and an init
attempt whose POST raised, via `claim_C4`. -/
theorem claim_C4_witness :
    ask_question (.resp 503 (.ok [("detail", "overloaded")]) "body")
      = (none, [.error ("Ask failed: " ++ "overloaded")])
    ∧ init_vqa_session "u" (.resp 200 (.ok []) "") none "QUJD"
        (fun _ => .ok [65]) (.exn "connection refused") ⟨none, none⟩
        = (false, ⟨none, none⟩,
           [.error ("Request error: " ++ "connection refused")]) :=
  ⟨(claim_C4.2.1 503 (.ok [("detail", "overloaded")]) "body" (by decide)).1,
   claim_C4.2.2.1 "u" (.resp 200 (.ok []) "") none "QUJD" (fun _ => .ok [65])
     ⟨none, none⟩ "connection refused" "pasted.png" [65] "image/png"
     (by decide) (by rfl)⟩

/-- C10: every failing `init_vqa_session` returns False with the stored
`vqa_session_id` and `vqa_caption` untouched; the state changes only when
the POST came back HTTP 200 with parseable JSON, in which case True is
returned. -/
theorem claim_C10
    (apiUrl : String) (hp : ReqResult) (up : Option UploadedFile)
    (pd : String) (dec : String → Except String (List Nat))
    (pr : ReqResult) (s : ClientState) :
    ((init_vqa_session apiUrl hp up pd dec pr s).1 = false →
      (init_vqa_session apiUrl hp up pd dec pr s).2.1 = s)
    ∧ ((init_vqa_session apiUrl hp up pd dec pr s).2.1 ≠ s →
      (init_vqa_session apiUrl hp up pd dec pr s).1 = true
      ∧ ∃ d t, pr = .resp 200 (.ok d) t) := by
  by_cases hh : check_backend_health hp = true
  · cases hPrep : prepFiles up pd dec with
    | noInput => simp [init_vqa_session, hh, hPrep]
    | raised e => simp [init_vqa_session, hh, hPrep]
    | files nm bs mm =>
        cases pr with
        | exn m => simp [init_vqa_session, hh, hPrep]
        | resp status json text =>
            by_cases hs : status = 200
            · subst hs
              cases json with
              | ok d =>
                  refine ⟨?_, ?_⟩
                  · simp [init_vqa_session, hh, hPrep]
                  · intro _
                    exact ⟨by simp [init_vqa_session, hh, hPrep], d, text, rfl⟩
              | error e => simp [init_vqa_session, hh, hPrep]
            · simp [init_vqa_session, hh, hPrep, hs]
  · simp [init_vqa_session, hh]

/-- C10 witness: an init attempt with the backend offline leaves a
previously stored session id and caption exactly as they were, via
`claim_C10`. -/
theorem claim_C10_witness :
    (init_vqa_session "u" (.exn "down") none "" (fun _ => .ok [])
        (.exn "x") ⟨some "old-id", some "old-cap"⟩).1 = false
    ∧ (init_vqa_session "u" (.exn "down") none "" (fun _ => .ok [])
        (.exn "x") ⟨some "old-id", some "old-cap"⟩).2.1
        = ⟨some "old-id", some "old-cap"⟩ :=
  ⟨by decide,
   (claim_C10 "u" (.exn "down") none "" (fun _ => .ok []) (.exn "x")
     ⟨some "old-id", some "old-cap"⟩).1 (by decide)⟩

/-- C6 counterexample: after an ask that failed with a SessionNotFound
response (404, detail "Session not found"), the client's stored state is
unchanged and the Session-Status panel still presents the stale session as
active — the code does not clear the session or otherwise prompt
re-initiation beyond echoing the server's message. -/
theorem claim_C6_counterexample :
    askFlow ⟨some "deadbeef-1234", some "a cat"⟩ "What color?"
        (.resp 404 (.ok [("detail", "Session not found")]) "")
      = (⟨some "deadbeef-1234", some "a cat"⟩, none,
         [.error "Ask failed: Session not found"])
    ∧ sessionStatusActive
        (askFlow ⟨some "deadbeef-1234", some "a cat"⟩ "What color?"
          (.resp 404 (.ok [("detail", "Session not found")]) "")).1
        = true := by
  constructor
  · rfl
  · rfl

/-- C6 (amended): when ask fails because the session is unknown or
expired, the client surfaces the server's error detail verbatim
("Ask failed: ...") but leaves `vqa_session_id` in place, so the status
panel keeps presenting the stale session exactly as before the failure;
recovery happens only when the user explicitly re-initiates. -/
theorem claim_C6
    (s : ClientState) (q : String) (status : Nat)
    (json : Except String JsonFields) (text : String)
    (hq : pyStrip q ≠ "") (hs : status ≠ 200) :
    askFlow s q (.resp status json text)
      = (s, none, [.error ("Ask failed: " ++ respDetail json text)])
    ∧ sessionStatusActive (askFlow s q (.resp status json text)).1
        = sessionStatusActive s := by
  constructor <;> simp [askFlow, ask_question, hq, hs]

/-- C6 witness: a concrete 404 SessionNotFound failure, via `claim_C6`. -/
theorem claim_C6_witness :
    askFlow ⟨some "id-1", some "c"⟩ "Q?"
        (.resp 404 (.ok [("detail", "gone")]) "")
      = (⟨some "id-1", some "c"⟩, none, [.error ("Ask failed: " ++ "gone")])
    ∧ sessionStatusActive
        (askFlow ⟨some "id-1", some "c"⟩ "Q?"
          (.resp 404 (.ok [("detail", "gone")]) "")).1
        = sessionStatusActive ⟨some "id-1", some "c"⟩ :=
  claim_C6 ⟨some "id-1", some "c"⟩ "Q?" 404 (.ok [("detail", "gone")]) ""
    (by decide) (by decide)

/-- C7: the health probe returns True exactly when the GET of `/health`
came back with status 200, returns False on a raised request exception,
and takes no session state at all; the sidebar metadata display depends
only on the `model` and `device` fields of the health response. -/
theorem claim_C7 :
    (∀ r : ReqResult,
      check_backend_health r = true ↔ ∃ json text, r = .resp 200 json text)
    ∧ (∀ m : String, check_backend_health (.exn m) = false)
    ∧ (∀ (hp : ReqResult) (d1 d2 : JsonFields) (st1 st2 : Nat)
        (t1 t2 apiUrl : String),
        d1.lookup "model" = d2.lookup "model" →
        d1.lookup "device" = d2.lookup "device" →
        sidebar_status hp (.resp st1 (.ok d1) t1) apiUrl
          = sidebar_status hp (.resp st2 (.ok d2) t2) apiUrl) := by
  refine ⟨?_, fun m => rfl, ?_⟩
  · intro r
    cases r with
    | resp status json text =>
        simp only [check_backend_health, beq_iff_eq, ReqResult.resp.injEq]
        constructor
        · intro h; exact ⟨json, text, h, rfl, rfl⟩
        · rintro ⟨j, t, h, -, -⟩; exact h
    | exn m =>
        simp [check_backend_health]
  · intro hp d1 d2 st1 st2 t1 t2 apiUrl h1 h2
    simp [sidebar_status, h1, h2]

/-- C7 witness: a healthy probe, a failed probe, and two health payloads
agreeing on `model` and `device`, via `claim_C7`. -/
theorem claim_C7_witness :
    check_backend_health (.resp 200 (.ok []) "") = true
    ∧ check_backend_health (.exn "timeout") = false
    ∧ sidebar_status (.resp 200 (.ok []) "")
        (.resp 200 (.ok [("model", "m"), ("device", "cpu")]) "x") "u"
      = sidebar_status (.resp 200 (.ok []) "")
        (.resp 404 (.ok [("device", "cpu"), ("model", "m"), ("extra", "z")]) "y") "u" :=
  ⟨((claim_C7.1 (.resp 200 (.ok []) "")).2 ⟨.ok [], "", rfl⟩),
   claim_C7.2.1 "timeout",
   claim_C7.2.2 (.resp 200 (.ok []) "") [("model", "m"), ("device", "cpu")]
     [("device", "cpu"), ("model", "m"), ("extra", "z")] 200 404 "x" "y" "u"
     (by decide) (by decide)⟩

/-- C9: init and preview select the base64 payload from a pasted string by
one and the same rule: strip, then — when the stripped data starts with
"data:" — take the substring after the first comma, otherwise the whole
stripped string; the bytes sent on the paste path are the decoding of
exactly that payload. -/
theorem claim_C9 (paste : String) :
    previewPasteB64 paste = extractPasteB64 paste
    ∧ (∀ pre post : List Char,
        pyStartsWith (pyStrip paste) "data:" = true →
        (pyStrip paste).data = pre ++ ',' :: post →
        ',' ∉ pre →
        extractPasteB64 paste = .ok ⟨post⟩)
    ∧ (pyStartsWith (pyStrip paste) "data:" = false →
        extractPasteB64 paste = .ok (pyStrip paste))
    ∧ (∀ (dec : String → Except String (List Nat)) (b64 : String)
        (bytes : List Nat),
        paste ≠ "" →
        extractPasteB64 paste = .ok b64 →
        dec b64 = .ok bytes →
        prepFiles none paste dec = .files "pasted.png" bytes "image/png") := by
  refine ⟨rfl, ?_, ?_, ?_⟩
  · intro pre post hstart hdata hpre
    simp only [extractPasteB64, hstart, if_true]
    rw [hdata, splitFirstComma_append post pre hpre]
  · intro hstart
    simp [extractPasteB64, hstart]
  · intro dec b64 bytes hne hex hdec
    simp [prepFiles, hne, hex, hdec]

/-- C9 witness: a data URL, a bare base64 string, and the bytes produced
on the paste path, via `claim_C9`. -/
theorem claim_C9_witness :
    extractPasteB64 " data:image/png;base64,QUJD " = .ok "QUJD"
    ∧ extractPasteB64 " QUJD " = .ok "QUJD"
    ∧ prepFiles none "QUJD" (fun _ => .ok [65, 66, 67])
        = .files "pasted.png" [65, 66, 67] "image/png" :=
  ⟨(claim_C9 " data:image/png;base64,QUJD ").2.1
     "data:image/png;base64".data "QUJD".data (by decide) (by decide) (by decide),
   (claim_C9 " QUJD ").2.2.1 (by decide),
   (claim_C9 "QUJD").2.2.2 (fun _ => .ok [65, 66, 67]) "QUJD" [65, 66, 67]
     (by decide) (by rfl) (by rfl)⟩

end SmolVLM
